import Mathlib

/-!
Verification development for the shader compilation/validation pipeline and the
scene-graph transform system of the rust_shader_viewer repository.

The definitions below are shallow embeddings of the Rust source:
  * src/shader.rs   — entry-point extraction, binding-layout inference, and the
    binding-group layout compatibility predicate;
  * src/pipeline.rs — the render-pipeline handle and its recreation;
  * src/scene_tree.rs — scene nodes, local/global transforms and the worklist
    transform-propagation pass.

Machine integers (u32 binding indices, group numbers, bitflag sets) are
modelled as Nat; wgpu bitflag sets are Nat bitmasks (VERTEX = 1, FRAGMENT = 2,
COMPUTE = 4) and `intersects` is a non-zero bitwise and.  4x4 float matrices
are idealized as elements of an arbitrary multiplicative monoid (identity for
Matrix4::identity, * for matrix multiplication); the scene-tree code only ever
copies, multiplies, and compares these values.  Log output (warn!/info!/error!)
is modelled as data only where a claim mentions it (warning counter in the
entry-point scan); otherwise it is dropped.  Rust panics (todo!/unreachable!)
are modelled by Option: a `none` result marks an execution on which the Rust
code would panic.
-/

/-! ### wgpu value types used by src/shader.rs -/

/-- wgpu `ShaderStages` bitflags `intersects`: the bitwise intersection of the
two stage sets is non-empty. -/
def ShaderStages.intersects (a b : Nat) : Bool := Nat.land a b != 0

/-- `wgpu::ShaderStages::VERTEX` bit. -/
def ShaderStages.VERTEX : Nat := 1

/-- `wgpu::ShaderStages::FRAGMENT` bit. -/
def ShaderStages.FRAGMENT : Nat := 2

/-- `wgpu::ShaderStages::VERTEX_FRAGMENT` = VERTEX | FRAGMENT. -/
def ShaderStages.VERTEX_FRAGMENT : Nat := 3

inductive TextureSampleType where
  | Float (filterable : Bool)
  | Depth
  | Sint
  | Uint
deriving DecidableEq

inductive SamplerBindingType where
  | Filtering
  | NonFiltering
  | Comparison
deriving DecidableEq

inductive TextureViewDimension where
  | D1
  | D2
  | D2Array
  | Cube
  | CubeArray
  | D3
deriving DecidableEq

inductive BufferBindingType where
  | Uniform
  | Storage (read_only : Bool)
deriving DecidableEq

/-- `wgpu::BindingType` (the variants the viewer's validator can meet). -/
inductive BindingType where
  | Buffer (ty : BufferBindingType) (has_dynamic_offset : Bool)
      (min_binding_size : Option Nat)
  | Sampler (ty : SamplerBindingType)
  | Texture (sample_type : TextureSampleType)
      (view_dimension : TextureViewDimension) (multisampled : Bool)
  | StorageTexture
deriving DecidableEq

/-- `wgpu::BindGroupLayoutEntry`. `visibility` is a `ShaderStages` bitmask. -/
structure BindGroupLayoutEntry where
  binding : Nat
  visibility : Nat
  ty : BindingType
  count : Option Nat
deriving DecidableEq

/-- Comparator used by `sort_by(|e1, e2| e1.binding.cmp(&e2.binding))`. -/
def entryLE (e1 e2 : BindGroupLayoutEntry) : Prop := e1.binding ≤ e2.binding

instance : DecidableRel entryLE := fun e1 e2 => Nat.decLe e1.binding e2.binding

/-- `OwningBindGroupLayoutDescriptor` from src/shader.rs (the shader's own,
inferred layout of one binding group). -/
structure OwningBindGroupLayoutDescriptor where
  label : Option String
  entries : List BindGroupLayoutEntry
deriving DecidableEq

/-- A borrowed `wgpu::BindGroupLayoutDescriptor` (the expected contract the
application supplies for one binding group). -/
structure BindGroupLayoutDescriptor where
  label : Option String
  entries : List BindGroupLayoutEntry
deriving DecidableEq

/-- The relaxation arms of the `match (entry1.ty, entry2.ty)` inside
`check_compatible` (src/shader.rs lines 85-101): `entry1` comes from the
shader's own (inferred) layout, `entry2` from the expected descriptor.  Note
that the texture arm ignores view dimension and multisampling (`..`). -/
def ty_relax_ok : BindingType → BindingType → Bool
  | BindingType.Texture (TextureSampleType.Float true) _ _,
    BindingType.Texture (TextureSampleType.Float false) _ _ => true
  | BindingType.Sampler SamplerBindingType.Filtering,
    BindingType.Sampler SamplerBindingType.NonFiltering => true
  | _, _ => false

/-- Body of the per-entry-pair loop of
`OwningBindGroupLayoutDescriptor::check_compatible` (src/shader.rs 75-111);
`entry1` is an entry of the shader's inferred layout, `entry2` the entry of
the expected descriptor paired with it after sorting.  Each `return false` of
the Rust loop becomes a `false` branch. -/
def entry_compatible (entry1 entry2 : BindGroupLayoutEntry) : Bool :=
  if entry1.binding ≠ entry2.binding then false
  else if !(ShaderStages.intersects entry2.visibility entry1.visibility) then false
  else if entry1.ty ≠ entry2.ty ∧ ty_relax_ok entry1.ty entry2.ty = false then false
  else
    match entry1.count, entry2.count with
    | some entry1_count, some entry2_count =>
        if entry1_count > entry2_count then false else true
    | some _, none => false
    | none, _ => true

/-- `OwningBindGroupLayoutDescriptor::check_compatible` (src/shader.rs 67-115):
sort both entry lists by binding index (Rust `sort_by` is a stable sort,
modelled with a stable insertion sort) and require every zipped pair to pass
`entry_compatible`. -/
def OwningBindGroupLayoutDescriptor.check_compatible
    (self : OwningBindGroupLayoutDescriptor) (other : BindGroupLayoutDescriptor) : Bool :=
  if self.entries.length ≠ other.entries.length then false
  else
    let my_entries_sorted := List.insertionSort entryLE self.entries
    let other_entries_sorted := List.insertionSort entryLE other.entries
    (my_entries_sorted.zip other_entries_sorted).all fun p => entry_compatible p.1 p.2

/-- `Shader::layout_matches` (src/shader.rs 384-392).  `layout` is the
shader's inferred layout (the `self.layout` field), `other` the expected
group descriptors supplied by the caller. -/
def Shader.layout_matches (layout : List OwningBindGroupLayoutDescriptor)
    (other : List BindGroupLayoutDescriptor) : Bool :=
  if layout.length ≠ other.length then false
  else (layout.zip other).all fun p => p.1.check_compatible p.2

/-- `Shader::get_layout` (src/shader.rs 374-382): borrow every owned group
descriptor with its label erased. -/
def Shader.get_layout (layout : List OwningBindGroupLayoutDescriptor) :
    List BindGroupLayoutDescriptor :=
  layout.map fun d => { label := none, entries := d.entries }

/-! ### Entry-point extraction (src/shader.rs 9-58) -/

inductive ShaderStage where
  | Vertex
  | Fragment
  | Compute
deriving DecidableEq

/-- A naga entry point: declared name and pipeline stage, in declaration
order inside `Module::entry_points`. -/
structure EntryPoint where
  name : String
  stage : ShaderStage
deriving DecidableEq

/-- Only the error variant reachable from the embedded functions is modelled
(`RendererError::ShaderCompile` from src/error.rs). -/
inductive RendererError where
  | ShaderCompile (msg : String)
deriving DecidableEq

/-- State of the scan over entry points in `get_entry_points`: the candidate
vertex/fragment entry points found so far, plus a counter of the `warn!`
calls the Rust code emits for duplicate entry points of a stage. -/
structure EntryPointScan where
  vertex_entry_point : Option String
  fragment_entry_point : Option String
  warnings : Nat
deriving DecidableEq

/-- One iteration of the entry-point loop of `get_entry_points`
(src/shader.rs 15-35): keep the first entry point of each stage, count a
warning for every later one, ignore compute entry points. -/
def scanEntryPoint (s : EntryPointScan) (ep : EntryPoint) : EntryPointScan :=
  match ep.stage with
  | ShaderStage.Vertex =>
      if s.vertex_entry_point.isSome then { s with warnings := s.warnings + 1 }
      else { s with vertex_entry_point := some ep.name }
  | ShaderStage.Fragment =>
      if s.fragment_entry_point.isSome then { s with warnings := s.warnings + 1 }
      else { s with fragment_entry_point := some ep.name }
  | ShaderStage.Compute => s

/-! ### naga module model (the parts read by src/shader.rs) -/

structure ResourceBinding where
  group : Nat
  binding : Nat
deriving DecidableEq

inductive ScalarKind where
  | Sint
  | Uint
  | Float
  | Bool
  | AbstractInt
  | AbstractFloat
deriving DecidableEq

inductive ImageDimension where
  | D1
  | D2
  | D3
  | Cube
deriving DecidableEq

inductive ImageClass where
  | Sampled (kind : ScalarKind) (multi : Bool)
  | Depth (multi : Bool)
  | Storage
deriving DecidableEq

/-- `naga::TypeInner`, collapsed to the distinctions
`naga_type_to_binding_group_type` actually makes; `Other` stands for every
remaining variant (pointers, binding arrays, ...), all of which hit the
final `todo!`. -/
inductive NagaTypeInner where
  | Scalar
  | Vector
  | Matrix
  | Atomic
  | Array
  | Struct
  | Image (dim : ImageDimension) (arrayed : Bool) (cls : ImageClass)
  | Sampler (comparison : Bool)
  | Other
deriving DecidableEq

structure NagaType where
  name : Option String
  inner : NagaTypeInner
deriving DecidableEq

/-- A naga global variable; the `types` arena lookup `module.types[global.ty]`
is inlined, so `ty` holds the type value directly. -/
structure GlobalVariable where
  name : Option String
  binding : Option ResourceBinding
  ty : NagaType
deriving DecidableEq

/-- A naga module: entry points and global variables in declaration order. -/
structure NagaModule where
  entry_points : List EntryPoint
  global_variables : List GlobalVariable
deriving DecidableEq

/-- `get_entry_points` (src/shader.rs 9-58).  The scan over all modules; the
`name` argument of the Rust function only feeds log messages and is dropped. -/
def scanModules (modules : List NagaModule) : EntryPointScan :=
  modules.foldl (fun s m => m.entry_points.foldl scanEntryPoint s) ⟨none, none, 0⟩

def get_entry_points (modules : List NagaModule) :
    Except RendererError (String × String) :=
  let s := scanModules modules
  match s.vertex_entry_point, s.fragment_entry_point with
  | none, none => Except.error (RendererError.ShaderCompile "Shader has no entry points!")
  | none, some _ => Except.error (RendererError.ShaderCompile "Shader has no vertex entry point!")
  | some _, none => Except.error (RendererError.ShaderCompile "Shader has no fragment entry point!")
  | some v, some f => Except.ok (v, f)

/-- Image dimension mapping inside `naga_type_to_binding_group_type`
(src/shader.rs 155-160). -/
def imageDimToViewDim : ImageDimension → TextureViewDimension
  | ImageDimension.D1 => TextureViewDimension.D1
  | ImageDimension.D2 => TextureViewDimension.D2
  | ImageDimension.D3 => TextureViewDimension.D3
  | ImageDimension.Cube => TextureViewDimension.Cube

/-- `naga_type_to_binding_group_type` (src/shader.rs 118-176).  `none` marks
the `todo!`/`unreachable!` panics (bool-sampled images, abstract scalars,
storage images, unsupported type categories). -/
def naga_type_to_binding_group_type (ty : NagaType) : Option BindingType :=
  match ty.inner with
  | NagaTypeInner.Scalar | NagaTypeInner.Vector | NagaTypeInner.Matrix
  | NagaTypeInner.Atomic | NagaTypeInner.Array | NagaTypeInner.Struct =>
      some (BindingType.Buffer BufferBindingType.Uniform false none)
  | NagaTypeInner.Image dim _ cls =>
      match cls with
      | ImageClass.Sampled kind multi =>
          match kind with
          | ScalarKind.Sint =>
              some (BindingType.Texture TextureSampleType.Sint (imageDimToViewDim dim) multi)
          | ScalarKind.Uint =>
              some (BindingType.Texture TextureSampleType.Uint (imageDimToViewDim dim) multi)
          | ScalarKind.Float =>
              some (BindingType.Texture (TextureSampleType.Float true) (imageDimToViewDim dim) multi)
          | ScalarKind.Bool => none
          | ScalarKind.AbstractInt => none
          | ScalarKind.AbstractFloat => none
      | ImageClass.Depth multi =>
          some (BindingType.Texture TextureSampleType.Depth (imageDimToViewDim dim) multi)
      | ImageClass.Storage => none
  | NagaTypeInner.Sampler comparison =>
      if comparison then some (BindingType.Sampler SamplerBindingType.Comparison)
      else some (BindingType.Sampler SamplerBindingType.Filtering)
  | NagaTypeInner.Other => none

/-- Label accumulation in `get_binding_layout` (src/shader.rs 207-213): the
group label collects the comma-separated names of its named globals. -/
def appendLabel (label : Option String) (name : Option String) : Option String :=
  match name with
  | none => label
  | some n =>
      let s := label.getD ""
      some (if s.isEmpty then s ++ n else s ++ "," ++ n)

/-- `layouts.resize_with(group + 1, default)` guarded by the length test
(src/shader.rs 200-205). -/
def resizeLayouts (layouts : List OwningBindGroupLayoutDescriptor) (n : Nat) :
    List OwningBindGroupLayoutDescriptor :=
  if layouts.length < n then layouts ++ List.replicate (n - layouts.length) ⟨none, []⟩
  else layouts

/-- Processing of one global variable inside `get_binding_layout`
(src/shader.rs 183-223): globals without a (group, binding) annotation are
skipped; for the rest, grow the group list, extend the group label, and push
a `BindGroupLayoutEntry` whose `count` is `None`.  A `none` result marks the
panic inside `naga_type_to_binding_group_type`. -/
def processGlobal (shader_type : Nat) (layouts : List OwningBindGroupLayoutDescriptor)
    (global : GlobalVariable) : Option (List OwningBindGroupLayoutDescriptor) :=
  match global.binding with
  | none => some layouts
  | some binding =>
      match naga_type_to_binding_group_type global.ty with
      | none => none
      | some ty =>
          let layouts := resizeLayouts layouts (binding.group + 1)
          let entry := layouts.getD binding.group ⟨none, []⟩
          let entry := { entry with
            label := appendLabel entry.label global.name,
            entries := entry.entries ++
              [{ binding := binding.binding, visibility := shader_type, ty := ty, count := none }] }
          some (layouts.set binding.group entry)

/-- `get_binding_layout` (src/shader.rs 178-226): fold over the modules, each
paired with its name (unused outside logs, kept for shape) and its
`wgpu::ShaderStages` visibility mask. -/
def get_binding_layout (modules : List (String × Nat × NagaModule)) :
    Option (List OwningBindGroupLayoutDescriptor) :=
  modules.foldlM
    (fun layouts m => m.2.2.global_variables.foldlM (processGlobal m.2.1) layouts) []

/-! ### Pipeline manager (src/pipeline.rs) -/

/-- The shader data `create_pipeline` reads (module handles stand in as the
shader name). -/
structure ShaderRef where
  name : String
  vertex_entry_point : String
  fragment_entry_point : String
deriving DecidableEq

/-- `PipelineCreateInfo` (src/pipeline.rs 5-12); formats, vertex-buffer
layouts and topology are opaque configuration values, modelled as Nat. -/
structure PipelineCreateInfo where
  color_format : Nat
  depth_format : Option Nat
  vertex_layouts : List Nat
  topology : Nat
  shader : ShaderRef
  label : Option String
deriving DecidableEq

/-- The `wgpu::RenderPipelineDescriptor` fields `create_pipeline` fills in
(src/pipeline.rs 25-66); the resulting GPU pipeline object is identified with
its descriptor. -/
structure RenderPipelineDescriptor where
  label : Option String
  layout : Option Nat
  vertex_module : String
  vertex_entry_point : String
  vertex_buffers : List Nat
  fragment_module : String
  fragment_entry_point : String
  color_format : Nat
  topology : Nat
  depth_format : Option Nat
deriving DecidableEq

/-- `RenderPipeline::create_pipeline` (src/pipeline.rs 20-67). -/
def RenderPipeline.create_pipeline (layout : Nat) (create_info : PipelineCreateInfo) :
    RenderPipelineDescriptor :=
  { label := create_info.label
    layout := some layout
    vertex_module := create_info.shader.name
    vertex_entry_point := create_info.shader.vertex_entry_point
    vertex_buffers := create_info.vertex_layouts
    fragment_module := create_info.shader.name
    fragment_entry_point := create_info.shader.fragment_entry_point
    color_format := create_info.color_format
    topology := create_info.topology
    depth_format := create_info.depth_format }

/-- `RenderPipeline` (src/pipeline.rs 14-17): the fixed layout contract
(identified by an id) plus the current opaque pipeline object. -/
structure RenderPipeline where
  pipeline_layout : Nat
  pipeline : RenderPipelineDescriptor
deriving DecidableEq

/-- `RenderPipeline::recreate` (src/pipeline.rs 82-86): rebuild only the
`pipeline` field against the stored `pipeline_layout`. -/
def RenderPipeline.recreate (self : RenderPipeline) (create_info : PipelineCreateInfo) :
    RenderPipeline :=
  { self with pipeline := RenderPipeline.create_pipeline self.pipeline_layout create_info }

/-! ### Scene tree (src/scene_tree.rs)

`M` is the idealized transform monoid (`1` = `Matrix4::identity()`,
`*` = matrix multiplication).  `parent`/`children` are arena indices
(`NodeHandle(usize)`); the shared `Arc<Mutex<Model>>` and the per-instance
slot are opaque handles whose GPU-side updates are external side effects. -/

structure SceneNode (M : Type) where
  local_transform : M
  cached_transform : M
  transform_changed : Bool
  parent : Option Nat
  children : List Nat
  model : Option Nat
  instance_id : Option Nat

/-- `SceneNode::default` (src/scene_tree.rs 23-35). -/
def SceneNode.default (M : Type) [One M] : SceneNode M :=
  { local_transform := 1
    cached_transform := 1
    transform_changed := false
    parent := none
    children := []
    model := none
    instance_id := none }

/-- `SceneNode::update_local_transform` (src/scene_tree.rs 42-48): store the
new local transform, mark the node changed, and for parentless nodes copy the
local transform into the cache at once. -/
def SceneNode.update_local_transform {M : Type} (self : SceneNode M) (transform : M) :
    SceneNode M :=
  let self := { self with local_transform := transform, transform_changed := true }
  if self.parent.isNone then { self with cached_transform := self.local_transform }
  else self

/-- `SceneNode::get_global_transform` (src/scene_tree.rs 50-56). -/
def SceneNode.get_global_transform {M : Type} (self : SceneNode M) : Option M :=
  if self.transform_changed then none else some self.cached_transform

/-- `SceneNode::refresh_transform` (src/scene_tree.rs 71-84): clear the
changed flag and recompute the cache as parent * local.  (The instance-buffer
update it also performs is an external side effect.)  No code path of the
repository calls this method. -/
def SceneNode.refresh_transform {M : Type} [Mul M] (self : SceneNode M)
    (parent_transform : M) : SceneNode M :=
  { self with
    transform_changed := false
    cached_transform := parent_transform * self.local_transform }

structure SceneTree (M : Type) where
  nodes : List (SceneNode M)

/-- `SceneTree::new_node` (src/scene_tree.rs 101-106): push a default node,
hand back its index. -/
def SceneTree.new_node {M : Type} [One M] (self : SceneTree M) : SceneTree M × Nat :=
  ({ nodes := self.nodes ++ [SceneNode.default M] }, self.nodes.length)

/-- `tree.get_mut(handle)` followed by `update_local_transform` on the
borrowed node; out-of-range handles leave the tree unchanged (`get_mut`
returns `None`). -/
def SceneTree.update_local_transform {M : Type} (self : SceneTree M) (i : Nat) (t : M) :
    SceneTree M :=
  match self.nodes.get? i with
  | none => self
  | some n => { nodes := self.nodes.set i (n.update_local_transform t) }

/-- The worklist loop of `SceneTree::update_transforms`
(src/scene_tree.rs 121-150).  `to_update` is the `Vec` used as a stack, kept
here with its top at the head (Rust pushes/pops at the tail).  Each iteration
pops one index; an invalid index or a self-parent or an invalid parent index
is only logged (`warn!`) and skipped; a node with a valid distinct parent
receives `node.update_local_transform(parent.cached_transform)`; finally the
node's children are pushed.  `fuel` bounds the number of iterations: the Rust
loop terminates exactly when the pending work runs out, which the chosen fuel
of the wrapper below covers for every forest topology. -/
def SceneTree.update_transforms_loop {M : Type} :
    List (SceneNode M) → Nat → List Nat → List (SceneNode M)
  | nodes, 0, _ => nodes
  | nodes, _ + 1, [] => nodes
  | nodes, fuel + 1, index :: rest =>
      match nodes.get? index with
      | none => SceneTree.update_transforms_loop nodes fuel rest
      | some node =>
          let node2 :=
            match node.parent with
            | some parent_index =>
                if index ≠ parent_index then
                  match nodes.get? parent_index with
                  | some parent => node.update_local_transform parent.cached_transform
                  | none => node
                else node
            | none => node
          SceneTree.update_transforms_loop (nodes.set index node2) fuel
            (node2.children.reverse ++ rest)

/-- `SceneTree::update_transforms` (src/scene_tree.rs 108-151): collect the
indices of all changed nodes (ascending, so the highest index is popped
first), then run the worklist.  For a forest, every initially-changed node
contributes at most its subtree to the worklist, so at most
`n * n` pops happen and the fuel `n * n + n + 1` is never exhausted; on
corrupt cyclic child links the Rust loop would spin forever and the embedding
stops returning the state reached. -/
def SceneTree.update_transforms {M : Type} (self : SceneTree M) : SceneTree M :=
  let to_update := (List.range self.nodes.length).filter fun i =>
    match self.nodes.get? i with
    | some n => n.transform_changed
    | none => false
  { nodes := SceneTree.update_transforms_loop self.nodes
      (self.nodes.length * self.nodes.length + self.nodes.length + 1) to_update.reverse }

/-! ### Helper lemmas: the compatibility predicate -/

/-- A visibility set intersects itself exactly when it is non-empty. -/
lemma intersects_self {v : Nat} (hv : v ≠ 0) : ShaderStages.intersects v v = true := by
  unfold ShaderStages.intersects
  have h : Nat.land v v = v := Nat.and_self v
  rw [h]
  simpa using hv

/-- Per-entry relation under which the validator accepts a pair: equal binding
index, equal non-empty visibility, equal count, and a resource kind that is
either identical or one of the two relaxation arms of `ty_relax_ok` (the
inferred side being the variant the code treats as stricter). -/
def EntryCompatRel (e1 e2 : BindGroupLayoutEntry) : Prop :=
  e1.binding = e2.binding ∧ e1.visibility = e2.visibility ∧ e1.visibility ≠ 0 ∧
  e1.count = e2.count ∧ (e1.ty = e2.ty ∨ ty_relax_ok e1.ty e2.ty = true)

lemma entry_compatible_of_rel {e1 e2 : BindGroupLayoutEntry} (h : EntryCompatRel e1 e2) :
    entry_compatible e1 e2 = true := by
  obtain ⟨hb, hv, hv0, hc, hty⟩ := h
  have hint : ShaderStages.intersects e2.visibility e1.visibility = true := by
    rw [← hv]; exact intersects_self hv0
  unfold entry_compatible
  rw [if_neg (by simp [hb]), if_neg (by simp [hint])]
  rw [if_neg ?tyok]
  case tyok =>
    rintro ⟨hne, hbad⟩
    rcases hty with h | h
    · exact hne h
    · rw [h] at hbad; cases hbad
  rw [← hc]
  cases e1.count with
  | none => rfl
  | some c => simp

/-- `orderedInsert` performed in lockstep on two lists whose paired elements
share binding indices preserves the pairing. -/
lemma orderedInsert_forall2 {R : BindGroupLayoutEntry → BindGroupLayoutEntry → Prop}
    (hbind : ∀ a b, R a b → a.binding = b.binding)
    {a b : BindGroupLayoutEntry} (hab : R a b)
    {l1 l2 : List BindGroupLayoutEntry} (h : List.Forall₂ R l1 l2) :
    List.Forall₂ R (List.orderedInsert entryLE a l1) (List.orderedInsert entryLE b l2) := by
  induction h with
  | nil =>
      simp only [List.orderedInsert]
      exact List.Forall₂.cons hab List.Forall₂.nil
  | cons hxy htail ih =>
      rename_i x y l1t l2t
      simp only [List.orderedInsert]
      by_cases hle : entryLE a x
      · have hle2 : entryLE b y := by
          unfold entryLE at *
          rw [← hbind a b hab, ← hbind x y hxy]
          exact hle
        rw [if_pos hle, if_pos hle2]
        exact List.Forall₂.cons hab (List.Forall₂.cons hxy htail)
      · have hle2 : ¬ entryLE b y := by
          unfold entryLE at *
          rw [← hbind a b hab, ← hbind x y hxy]
          exact hle
        rw [if_neg hle, if_neg hle2]
        exact List.Forall₂.cons hxy ih

/-- Sorting two lists by binding index in lockstep (the stable sort the Rust
`sort_by` performs on both sides) preserves a binding-respecting pairing. -/
lemma insertionSort_forall2 {R : BindGroupLayoutEntry → BindGroupLayoutEntry → Prop}
    (hbind : ∀ a b, R a b → a.binding = b.binding)
    {l1 l2 : List BindGroupLayoutEntry} (h : List.Forall₂ R l1 l2) :
    List.Forall₂ R (List.insertionSort entryLE l1) (List.insertionSort entryLE l2) := by
  induction h with
  | nil => exact List.Forall₂.nil
  | cons hxy htail ih =>
      simp only [List.insertionSort]
      exact orderedInsert_forall2 hbind hxy ih

lemma zip_all_of_forall2 {α β : Type} {R : α → β → Prop} {p : α → β → Bool}
    (hp : ∀ a b, R a b → p a b = true)
    {l1 : List α} {l2 : List β} (h : List.Forall₂ R l1 l2) :
    ((l1.zip l2).all fun x => p x.1 x.2) = true := by
  induction h with
  | nil => rfl
  | cons hxy htail ih => simp_all [List.zip_cons_cons, List.all_cons]

lemma check_compatible_of_forall2 {d1 : OwningBindGroupLayoutDescriptor}
    {d2 : BindGroupLayoutDescriptor}
    (h : List.Forall₂ EntryCompatRel d1.entries d2.entries) :
    d1.check_compatible d2 = true := by
  unfold OwningBindGroupLayoutDescriptor.check_compatible
  rw [if_neg (by simp [h.length_eq])]
  exact zip_all_of_forall2 (fun a b hab => entry_compatible_of_rel hab)
    (insertionSort_forall2 (fun a b hab => hab.1) h)

/-- Group-level relation: the two groups' entry lists are paired by
`EntryCompatRel`. -/
def DescCompatRel (d1 : OwningBindGroupLayoutDescriptor)
    (d2 : BindGroupLayoutDescriptor) : Prop :=
  List.Forall₂ EntryCompatRel d1.entries d2.entries

lemma layout_matches_of_forall2 {L1 : List OwningBindGroupLayoutDescriptor}
    {L2 : List BindGroupLayoutDescriptor} (h : List.Forall₂ DescCompatRel L1 L2) :
    Shader.layout_matches L1 L2 = true := by
  unfold Shader.layout_matches
  rw [if_neg (by simp [h.length_eq])]
  exact zip_all_of_forall2 (fun a b hab => check_compatible_of_forall2 hab) h

lemma mem_zip_of_getElem? {α β : Type} {l1 : List α} {l2 : List β} {k : Nat} {a : α} {b : β}
    (h1 : l1[k]? = some a) (h2 : l2[k]? = some b) : (a, b) ∈ l1.zip l2 := by
  induction l1 generalizing l2 k with
  | nil => simp at h1
  | cons x xs ih =>
      cases l2 with
      | nil => simp at h2
      | cons y ys =>
          cases k with
          | zero =>
              simp only [List.getElem?_cons_zero, Option.some_inj] at h1 h2
              subst h1; subst h2
              simp [List.zip_cons_cons]
          | succ k =>
              simp only [List.getElem?_cons_succ] at h1 h2
              simp only [List.zip_cons_cons, List.mem_cons]
              exact Or.inr (ih h1 h2)

lemma all_eq_false_of_mem {α : Type} {l : List α} {p : α → Bool} {x : α}
    (hx : x ∈ l) (hpx : p x = false) : l.all p = false := by
  rw [List.all_eq_false]
  exact ⟨x, hx, by simp [hpx]⟩

/-! ### Helper lemmas: entry-point scan -/

/-- Name of the first entry point of a stage, in declaration order. -/
def firstStageName (st : ShaderStage) (eps : List EntryPoint) : Option String :=
  (eps.find? fun ep => ep.stage == st).map EntryPoint.name

/-- Number of entry points of a stage. -/
def stageCount (st : ShaderStage) (eps : List EntryPoint) : Nat :=
  eps.countP fun ep => ep.stage == st

/-- Full characterization of the entry-point scan loop: each stage keeps its
first-declared entry point, and every further entry point of an
already-taken stage adds one warning. -/
lemma scan_foldl (eps : List EntryPoint) (s : EntryPointScan) :
    eps.foldl scanEntryPoint s =
      { vertex_entry_point :=
          if s.vertex_entry_point.isSome then s.vertex_entry_point
          else firstStageName ShaderStage.Vertex eps
        fragment_entry_point :=
          if s.fragment_entry_point.isSome then s.fragment_entry_point
          else firstStageName ShaderStage.Fragment eps
        warnings := s.warnings +
          (if s.vertex_entry_point.isSome then stageCount ShaderStage.Vertex eps
           else stageCount ShaderStage.Vertex eps - 1) +
          (if s.fragment_entry_point.isSome then stageCount ShaderStage.Fragment eps
           else stageCount ShaderStage.Fragment eps - 1) } := by
  induction eps generalizing s with
  | nil =>
      obtain ⟨v, f, w⟩ := s
      cases v <;> cases f <;> simp [firstStageName, stageCount]
  | cons ep rest ih =>
      rw [List.foldl_cons, ih]
      obtain ⟨v, f, w⟩ := s
      cases hst : ep.stage <;> cases v <;> cases f <;>
        simp [scanEntryPoint, hst, firstStageName, stageCount, List.countP_cons,
          List.find?_cons] <;> omega

/-! ### Helper lemmas: binding-layout inference -/

/-- Invariant preservation through an `Option`-valued left fold: a property of
the accumulator survives every successful step. -/
lemma foldlM_option_invariant {α β : Type} (P : β → Prop) (f : β → α → Option β)
    (hf : ∀ b a b2, f b a = some b2 → P b → P b2) :
    ∀ (l : List α) (b b2 : β), List.foldlM f b l = some b2 → P b → P b2 := by
  intro l
  induction l with
  | nil =>
      intro b b2 h hb
      simp only [List.foldlM_nil] at h
      cases h
      exact hb
  | cons a l ih =>
      intro b b2 h hb
      rw [List.foldlM_cons] at h
      cases hfb : f b a with
      | none =>
          rw [hfb] at h
          simp only [Option.bind_eq_bind, Option.none_bind] at h
          cases h
      | some b1 =>
          rw [hfb] at h
          simp only [Option.bind_eq_bind, Option.some_bind] at h
          exact ih b1 b2 h (hf b a b1 hfb hb)

/-- Every entry of every group of a layout list has no array count. -/
def layoutsCountNone (layouts : List OwningBindGroupLayoutDescriptor) : Prop :=
  ∀ d ∈ layouts, ∀ e ∈ d.entries, e.count = none

lemma resizeLayouts_countNone {layouts : List OwningBindGroupLayoutDescriptor} {n : Nat}
    (hP : layoutsCountNone layouts) : layoutsCountNone (resizeLayouts layouts n) := by
  intro d hd e he
  unfold resizeLayouts at hd
  by_cases hlen : layouts.length < n
  · rw [if_pos hlen] at hd
    rcases List.mem_append.mp hd with h1 | h1
    · exact hP d h1 e he
    · rw [List.eq_of_mem_replicate h1] at he
      simp at he
  · rw [if_neg hlen] at hd
    exact hP d hd e he

lemma processGlobal_countNone {st : Nat} {layouts layouts2 : List OwningBindGroupLayoutDescriptor}
    {g : GlobalVariable} (h : processGlobal st layouts g = some layouts2)
    (hP : layoutsCountNone layouts) : layoutsCountNone layouts2 := by
  unfold processGlobal at h
  cases hb : g.binding with
  | none =>
      rw [hb] at h
      cases h
      exact hP
  | some binding =>
      rw [hb] at h
      cases hty : naga_type_to_binding_group_type g.ty with
      | none => rw [hty] at h; cases h
      | some ty =>
          rw [hty] at h
          simp only [Option.some_inj] at h
          subst h
          have hres : layoutsCountNone (resizeLayouts layouts (binding.group + 1)) :=
            resizeLayouts_countNone hP
          intro d hd e he
          rcases List.mem_or_eq_of_mem_set hd with h1 | h1
          · exact hres d h1 e he
          · subst h1
            simp only at he
            rcases List.mem_append.mp he with h2 | h2
            · have hget := List.getD_eq_getElem?_getD
                (resizeLayouts layouts (binding.group + 1)) binding.group ⟨none, []⟩
              cases hx : (resizeLayouts layouts (binding.group + 1))[binding.group]? with
              | none =>
                  rw [hget, hx] at h2
                  simp at h2
              | some x =>
                  rw [hget, hx] at h2
                  simp only [Option.getD_some] at h2
                  exact hres x (List.getElem?_mem hx) e h2
            · simp only [List.mem_singleton] at h2
              rw [h2]

/-! ### Helper lemmas: failing entry pairs -/

/-- If the entry lists of a zipped group pair are already sorted by binding
index and some positional pair fails the per-entry check, the group check
fails. -/
lemma check_compatible_false_of_bad_pair {d1 : OwningBindGroupLayoutDescriptor}
    {d2 : BindGroupLayoutDescriptor} {i : Nat} {e1 e2 : BindGroupLayoutEntry}
    (hs1 : List.Sorted entryLE d1.entries) (hs2 : List.Sorted entryLE d2.entries)
    (h1 : d1.entries[i]? = some e1) (h2 : d2.entries[i]? = some e2)
    (hbad : entry_compatible e1 e2 = false) :
    d1.check_compatible d2 = false := by
  unfold OwningBindGroupLayoutDescriptor.check_compatible
  by_cases hlen : d1.entries.length ≠ d2.entries.length
  · rw [if_pos hlen]
  · rw [if_neg hlen]
    show ((List.insertionSort entryLE d1.entries).zip
      (List.insertionSort entryLE d2.entries)).all (fun p => entry_compatible p.1 p.2) = false
    rw [hs1.insertionSort_eq, hs2.insertionSort_eq]
    exact all_eq_false_of_mem (mem_zip_of_getElem? h1 h2) hbad

/-- If some positional group pair fails `check_compatible`, the whole layout
comparison fails. -/
lemma layout_matches_false_of_bad_group {L1 : List OwningBindGroupLayoutDescriptor}
    {L2 : List BindGroupLayoutDescriptor} {k : Nat}
    {g1 : OwningBindGroupLayoutDescriptor} {g2 : BindGroupLayoutDescriptor}
    (h1 : L1[k]? = some g1) (h2 : L2[k]? = some g2)
    (hbad : g1.check_compatible g2 = false) :
    Shader.layout_matches L1 L2 = false := by
  unfold Shader.layout_matches
  by_cases hlen : L1.length ≠ L2.length
  · rw [if_pos hlen]
  · rw [if_neg hlen]
    exact all_eq_false_of_mem (mem_zip_of_getElem? h1 h2) hbad

/-- An entry pair whose resource kinds differ and fall outside both
relaxation arms is rejected whatever the rest of the entries say. -/
lemma entry_compatible_false_of_ty {e1 e2 : BindGroupLayoutEntry}
    (hne : e1.ty ≠ e2.ty) (hrelax : ty_relax_ok e1.ty e2.ty = false) :
    entry_compatible e1 e2 = false := by
  unfold entry_compatible
  by_cases hb : e1.binding ≠ e2.binding
  · rw [if_pos hb]
  · rw [if_neg hb]
    by_cases hi : (!(ShaderStages.intersects e2.visibility e1.visibility)) = true
    · rw [if_pos hi]
    · rw [if_neg hi, if_pos ⟨hne, hrelax⟩]

/-! ### Concrete layouts used by the validator claims -/

/-- Single texture entry at binding 0, visible to both stages. -/
def texEntry (filterable : Bool) : BindGroupLayoutEntry :=
  { binding := 0, visibility := ShaderStages.VERTEX_FRAGMENT,
    ty := BindingType.Texture (TextureSampleType.Float filterable) TextureViewDimension.D2 false,
    count := none }

/-- Single sampler entry at binding 0, visible to both stages. -/
def samplerEntry (s : SamplerBindingType) : BindGroupLayoutEntry :=
  { binding := 0, visibility := ShaderStages.VERTEX_FRAGMENT,
    ty := BindingType.Sampler s, count := none }

/-- Single uniform-buffer entry at binding 0 with a chosen visibility mask
and array count. -/
def bufferEntry (visibility : Nat) (count : Option Nat) : BindGroupLayoutEntry :=
  { binding := 0, visibility := visibility,
    ty := BindingType.Buffer BufferBindingType.Uniform false none, count := count }

/-! ### Claim C2 -/

/-- Claim C2 counterexample: with the expected side requiring
`Texture{Float{filterable:true}}` and the inferred (shader) side supplying
`Texture{Float{filterable:false}}` at the same binding, `layout_matches`
returns false — not true as claimed; the sampler direction of the claim
(expected `Filtering`, inferred `NonFiltering`) is rejected as well.  The
code's relaxation runs in the opposite direction (entry1 of
`check_compatible` is the inferred side). -/
theorem filterable_direction_counterexample :
    Shader.layout_matches [⟨some "t", [texEntry false]⟩] [⟨none, [texEntry true]⟩] = false ∧
    Shader.layout_matches [⟨some "s", [samplerEntry SamplerBindingType.NonFiltering]⟩]
      [⟨none, [samplerEntry SamplerBindingType.Filtering]⟩] = false := by
  decide

/-- Claim C2 (amended): the relaxation accepted by `layout_matches` is the
mirror image of the claim: a pair of layouts identical up to per-entry
relaxations (equal binding, equal non-empty visibility, equal count, kind
equal or inferred `Texture{Float{filterable:true}}` against expected
`Texture{Float{filterable:false}}`, or inferred `Sampler{Filtering}` against
expected `Sampler{NonFiltering}`) matches; and the two reverse directions
(inferred `filterable:false` vs expected `filterable:true`, inferred
`NonFiltering` vs expected `Filtering` at a common position of
binding-sorted groups) make `layout_matches` return false. -/
theorem filterable_direction_amended :
    (∀ (L1 : List OwningBindGroupLayoutDescriptor) (L2 : List BindGroupLayoutDescriptor),
        List.Forall₂ DescCompatRel L1 L2 → Shader.layout_matches L1 L2 = true) ∧
    (∀ (L1 : List OwningBindGroupLayoutDescriptor) (L2 : List BindGroupLayoutDescriptor)
        (k i : Nat) (g1 : OwningBindGroupLayoutDescriptor) (g2 : BindGroupLayoutDescriptor)
        (e1 e2 : BindGroupLayoutEntry) (d1 : TextureViewDimension) (m1 : Bool)
        (d2 : TextureViewDimension) (m2 : Bool),
        L1[k]? = some g1 → L2[k]? = some g2 →
        List.Sorted entryLE g1.entries → List.Sorted entryLE g2.entries →
        g1.entries[i]? = some e1 → g2.entries[i]? = some e2 →
        e1.ty = BindingType.Texture (TextureSampleType.Float false) d1 m1 →
        e2.ty = BindingType.Texture (TextureSampleType.Float true) d2 m2 →
        Shader.layout_matches L1 L2 = false) ∧
    (∀ (L1 : List OwningBindGroupLayoutDescriptor) (L2 : List BindGroupLayoutDescriptor)
        (k i : Nat) (g1 : OwningBindGroupLayoutDescriptor) (g2 : BindGroupLayoutDescriptor)
        (e1 e2 : BindGroupLayoutEntry),
        L1[k]? = some g1 → L2[k]? = some g2 →
        List.Sorted entryLE g1.entries → List.Sorted entryLE g2.entries →
        g1.entries[i]? = some e1 → g2.entries[i]? = some e2 →
        e1.ty = BindingType.Sampler SamplerBindingType.NonFiltering →
        e2.ty = BindingType.Sampler SamplerBindingType.Filtering →
        Shader.layout_matches L1 L2 = false) := by
  refine ⟨fun L1 L2 h => layout_matches_of_forall2 h, ?_, ?_⟩
  · intro L1 L2 k i g1 g2 e1 e2 d1 m1 d2 m2 hk1 hk2 hs1 hs2 hi1 hi2 hty1 hty2
    refine layout_matches_false_of_bad_group hk1 hk2
      (check_compatible_false_of_bad_pair hs1 hs2 hi1 hi2
        (entry_compatible_false_of_ty ?_ ?_))
    · rw [hty1, hty2]; simp
    · rw [hty1, hty2]; rfl
  · intro L1 L2 k i g1 g2 e1 e2 hk1 hk2 hs1 hs2 hi1 hi2 hty1 hty2
    refine layout_matches_false_of_bad_group hk1 hk2
      (check_compatible_false_of_bad_pair hs1 hs2 hi1 hi2
        (entry_compatible_false_of_ty ?_ ?_))
    · rw [hty1, hty2]; simp
    · rw [hty1, hty2]; rfl

/-- Witness for the amended Claim C2, at concrete single-entry layouts:
inferred `filterable:true` against expected `filterable:false` matches, and
both reverse direction instances are rejected. -/
theorem filterable_direction_amended_witness :
    Shader.layout_matches [⟨some "t", [texEntry true]⟩] [⟨none, [texEntry false]⟩] = true ∧
    Shader.layout_matches [⟨some "t", [texEntry false]⟩] [⟨none, [texEntry true]⟩] = false ∧
    Shader.layout_matches [⟨some "s", [samplerEntry SamplerBindingType.NonFiltering]⟩]
      [⟨none, [samplerEntry SamplerBindingType.Filtering]⟩] = false := by
  refine ⟨?_, ?_, ?_⟩
  · exact filterable_direction_amended.1 _ _
      (List.Forall₂.cons
        (List.Forall₂.cons ⟨rfl, rfl, by decide, rfl, Or.inr rfl⟩ List.Forall₂.nil)
        List.Forall₂.nil)
  · exact filterable_direction_amended.2.1 _ _ 0 0 _ _ (texEntry false) (texEntry true)
      TextureViewDimension.D2 false TextureViewDimension.D2 false rfl rfl
      (List.sorted_singleton _) (List.sorted_singleton _) rfl rfl rfl rfl
  · exact filterable_direction_amended.2.2 _ _ 0 0 _ _
      (samplerEntry SamplerBindingType.NonFiltering) (samplerEntry SamplerBindingType.Filtering)
      rfl rfl (List.sorted_singleton _) (List.sorted_singleton _) rfl rfl rfl rfl

/-! ### Claim C4 -/

/-- Claim C4 counterexample: an inferred entry visible to VERTEX|FRAGMENT
against an expected entry visible only to VERTEX is accepted by
`layout_matches` although the expected visibility (1) is not a superset of
the inferred visibility (3) — the code only requires a non-empty
intersection. -/
theorem visibility_superset_counterexample :
    Shader.layout_matches [⟨some "b", [bufferEntry ShaderStages.VERTEX_FRAGMENT none]⟩]
      [⟨none, [bufferEntry ShaderStages.VERTEX none]⟩] = true ∧
    Nat.land ShaderStages.VERTEX ShaderStages.VERTEX_FRAGMENT ≠
      ShaderStages.VERTEX_FRAGMENT := by
  decide

/-- Claim C4 (amended): an entry pair is accepted on visibility only when the
expected and inferred visibility sets intersect (share at least one stage);
a pair of binding-sorted layouts with a disjoint pair at a common position
makes `layout_matches` return false. -/
theorem visibility_intersects_amended :
    (∀ e1 e2 : BindGroupLayoutEntry, entry_compatible e1 e2 = true →
        Nat.land e2.visibility e1.visibility ≠ 0) ∧
    (∀ (L1 : List OwningBindGroupLayoutDescriptor) (L2 : List BindGroupLayoutDescriptor)
        (k i : Nat) (g1 : OwningBindGroupLayoutDescriptor) (g2 : BindGroupLayoutDescriptor)
        (e1 e2 : BindGroupLayoutEntry),
        L1[k]? = some g1 → L2[k]? = some g2 →
        List.Sorted entryLE g1.entries → List.Sorted entryLE g2.entries →
        g1.entries[i]? = some e1 → g2.entries[i]? = some e2 →
        Nat.land e2.visibility e1.visibility = 0 →
        Shader.layout_matches L1 L2 = false) := by
  constructor
  · intro e1 e2 h hz
    have hint : ShaderStages.intersects e2.visibility e1.visibility = false := by
      unfold ShaderStages.intersects
      simp [hz]
    unfold entry_compatible at h
    rw [hint] at h
    simp [ite_self] at h
  · intro L1 L2 k i g1 g2 e1 e2 hk1 hk2 hs1 hs2 hi1 hi2 hz
    have hint : ShaderStages.intersects e2.visibility e1.visibility = false := by
      unfold ShaderStages.intersects
      simp [hz]
    refine layout_matches_false_of_bad_group hk1 hk2
      (check_compatible_false_of_bad_pair hs1 hs2 hi1 hi2 ?_)
    unfold entry_compatible
    by_cases hb : e1.binding ≠ e2.binding
    · rw [if_pos hb]
    · rw [if_neg hb, if_pos (by simp [hint])]

/-- Witness for the amended Claim C4: a concretely accepted pair has
intersecting visibilities, and a disjoint pair at position 0 of sorted
single-entry layouts is rejected. -/
theorem visibility_intersects_amended_witness :
    (entry_compatible (bufferEntry ShaderStages.VERTEX_FRAGMENT none)
      (bufferEntry ShaderStages.VERTEX none) = true ∧
     Nat.land ShaderStages.VERTEX ShaderStages.VERTEX_FRAGMENT ≠ 0) ∧
    Shader.layout_matches [⟨some "b", [bufferEntry ShaderStages.VERTEX none]⟩]
      [⟨none, [bufferEntry ShaderStages.FRAGMENT none]⟩] = false := by
  constructor
  · exact ⟨by decide, visibility_intersects_amended.1
      (bufferEntry ShaderStages.VERTEX_FRAGMENT none)
      (bufferEntry ShaderStages.VERTEX none) (by decide)⟩
  · exact visibility_intersects_amended.2 _ _ 0 0 _ _
      (bufferEntry ShaderStages.VERTEX none) (bufferEntry ShaderStages.FRAGMENT none)
      rfl rfl (List.sorted_singleton _) (List.sorted_singleton _) rfl rfl (by decide)

/-! ### Claim C5 -/

/-- Claim C5 counterexample: an otherwise fully compatible entry pair with an
inferred count of `Some 1` and an expected count of `None` is rejected —
the claim says absence of an expected count accepts any inferred value.
Dropping the inferred count makes the same pair acceptable, so the count is
the deciding difference. -/
theorem array_count_direction_counterexample :
    entry_compatible (bufferEntry ShaderStages.VERTEX_FRAGMENT (some 1))
      (bufferEntry ShaderStages.VERTEX_FRAGMENT none) = false ∧
    entry_compatible (bufferEntry ShaderStages.VERTEX_FRAGMENT none)
      (bufferEntry ShaderStages.VERTEX_FRAGMENT none) = true := by
  decide

/-- Claim C5 (amended): the count constraint runs from the inferred side: for
an entry pair passing the binding, visibility and resource-kind checks, the
pair is accepted exactly when the inferred entry either specifies no count
(in which case any expected count, including none, is accepted) or specifies
a count that the expected entry matches with a count at least as large. -/
theorem array_count_direction_amended (e1 e2 : BindGroupLayoutEntry)
    (hb : e1.binding = e2.binding)
    (hv : Nat.land e2.visibility e1.visibility ≠ 0)
    (hty : e1.ty = e2.ty ∨ ty_relax_ok e1.ty e2.ty = true) :
    entry_compatible e1 e2 = true ↔
      (match e1.count with
       | none => True
       | some c1 => ∃ c2, e2.count = some c2 ∧ c1 ≤ c2) := by
  have hint : ShaderStages.intersects e2.visibility e1.visibility = true := by
    unfold ShaderStages.intersects
    simpa using hv
  have htyneg : ¬(e1.ty ≠ e2.ty ∧ ty_relax_ok e1.ty e2.ty = false) := by
    rintro ⟨hne, hbad⟩
    rcases hty with h | h
    · exact hne h
    · rw [h] at hbad; cases hbad
  unfold entry_compatible
  rw [if_neg (by simp [hb]), if_neg (by simp [hint]), if_neg htyneg]
  cases e1.count with
  | none => simp
  | some c1 =>
      cases e2.count with
      | none => simp
      | some c2 =>
          by_cases hgt : c1 > c2
          · simp only [if_pos hgt]
            constructor
            · intro h; cases h
            · rintro ⟨c, hc, hle⟩
              cases hc
              omega
          · simp only [if_neg hgt]
            constructor
            · intro _
              exact ⟨c2, rfl, by omega⟩
            · intro _; trivial

/-- Witness for the amended Claim C5: a concrete pair with inferred count 2
and expected count 3 is accepted through the equivalence. -/
theorem array_count_direction_amended_witness :
    entry_compatible (bufferEntry ShaderStages.VERTEX_FRAGMENT (some 2))
      (bufferEntry ShaderStages.VERTEX_FRAGMENT (some 3)) = true := by
  exact (array_count_direction_amended
    (bufferEntry ShaderStages.VERTEX_FRAGMENT (some 2))
    (bufferEntry ShaderStages.VERTEX_FRAGMENT (some 3))
    rfl (by decide) (Or.inl rfl)).mpr ⟨3, rfl, by decide⟩

/-! ### Claim C6 -/

/-- Claim C6: `layout_matches(X, X)` holds for every non-degenerate layout X
(every group non-empty, every entry with non-empty visibility), the expected
side being the borrowed descriptors `get_layout` produces for X. -/
theorem layout_matches_reflexive (X : List OwningBindGroupLayoutDescriptor)
    (_hne : ∀ d ∈ X, d.entries ≠ [])
    (hvis : ∀ d ∈ X, ∀ e ∈ d.entries, e.visibility ≠ 0) :
    Shader.layout_matches X (Shader.get_layout X) = true := by
  apply layout_matches_of_forall2
  unfold Shader.get_layout
  rw [List.forall₂_map_right_iff, List.forall₂_same]
  intro d hd
  unfold DescCompatRel
  rw [List.forall₂_same]
  intro e he
  exact ⟨rfl, rfl, hvis d hd e he, rfl, Or.inl rfl⟩

/-- Witness for Claim C6 at a concrete one-group, one-entry layout. -/
theorem layout_matches_reflexive_witness :
    Shader.layout_matches [⟨some "camera", [bufferEntry ShaderStages.VERTEX_FRAGMENT none]⟩]
      (Shader.get_layout [⟨some "camera", [bufferEntry ShaderStages.VERTEX_FRAGMENT none]⟩]) =
      true := by
  exact layout_matches_reflexive _ (by decide) (by decide)

/-! ### Claim C7 -/

/-- Claim C7: for a parsed module with at least two vertex entry points and
at least one fragment entry point, `get_entry_points` succeeds with the
first-declared entry point of each stage, and one warning is logged per
duplicate entry point of a stage. -/
theorem entry_points_first_wins (m : NagaModule)
    (hv : 2 ≤ stageCount ShaderStage.Vertex m.entry_points)
    (hf : 1 ≤ stageCount ShaderStage.Fragment m.entry_points) :
    ∃ epv epf : EntryPoint,
      m.entry_points.find? (fun ep => ep.stage == ShaderStage.Vertex) = some epv ∧
      m.entry_points.find? (fun ep => ep.stage == ShaderStage.Fragment) = some epf ∧
      get_entry_points [m] = Except.ok (epv.name, epf.name) ∧
      (scanModules [m]).warnings =
        (stageCount ShaderStage.Vertex m.entry_points - 1) +
        (stageCount ShaderStage.Fragment m.entry_points - 1) := by
  have hvs : (m.entry_points.find? fun ep => ep.stage == ShaderStage.Vertex).isSome := by
    rw [List.find?_isSome]
    exact List.countP_pos_iff.mp (by unfold stageCount at hv; omega)
  have hfs : (m.entry_points.find? fun ep => ep.stage == ShaderStage.Fragment).isSome := by
    rw [List.find?_isSome]
    exact List.countP_pos_iff.mp (by unfold stageCount at hf; omega)
  obtain ⟨epv, hepv⟩ := Option.isSome_iff_exists.mp hvs
  obtain ⟨epf, hepf⟩ := Option.isSome_iff_exists.mp hfs
  have hscan : scanModules [m] =
      { vertex_entry_point := firstStageName ShaderStage.Vertex m.entry_points
        fragment_entry_point := firstStageName ShaderStage.Fragment m.entry_points
        warnings := (stageCount ShaderStage.Vertex m.entry_points - 1) +
          (stageCount ShaderStage.Fragment m.entry_points - 1) } := by
    unfold scanModules
    rw [List.foldl_cons, List.foldl_nil, scan_foldl]
    simp
  refine ⟨epv, epf, hepv, hepf, ?_, ?_⟩
  · unfold get_entry_points
    rw [hscan]
    simp only [firstStageName, hepv, hepf]
    rfl
  · rw [hscan]

/-- Module with two vertex entry points and one fragment entry point, used to
witness Claim C7. -/
def twoVertexModule : NagaModule :=
  { entry_points :=
      [⟨"vs_main", ShaderStage.Vertex⟩, ⟨"vs_other", ShaderStage.Vertex⟩,
       ⟨"fs_main", ShaderStage.Fragment⟩]
    global_variables := [] }

/-- Witness for Claim C7: on `twoVertexModule` extraction keeps the
first-declared vertex entry point and logs one warning. -/
theorem entry_points_first_wins_witness :
    2 ≤ stageCount ShaderStage.Vertex twoVertexModule.entry_points ∧
    ∃ epv epf : EntryPoint,
      twoVertexModule.entry_points.find? (fun ep => ep.stage == ShaderStage.Vertex) = some epv ∧
      twoVertexModule.entry_points.find? (fun ep => ep.stage == ShaderStage.Fragment) = some epf ∧
      get_entry_points [twoVertexModule] = Except.ok (epv.name, epf.name) ∧
      (scanModules [twoVertexModule]).warnings =
        (stageCount ShaderStage.Vertex twoVertexModule.entry_points - 1) +
        (stageCount ShaderStage.Fragment twoVertexModule.entry_points - 1) :=
  ⟨by decide, entry_points_first_wins twoVertexModule (by decide) (by decide)⟩

/-! ### Claim C9 -/

/-- Claim C9: `recreate` mutates only the opaque pipeline object; the stored
pipeline-layout contract is unchanged by a single `recreate` and by any
sequence of `recreate` calls. -/
theorem recreate_preserves_layout (p : RenderPipeline) (infos : List PipelineCreateInfo) :
    (infos.foldl RenderPipeline.recreate p).pipeline_layout = p.pipeline_layout ∧
    ∀ ci : PipelineCreateInfo, (p.recreate ci).pipeline_layout = p.pipeline_layout := by
  constructor
  · induction infos generalizing p with
    | nil => rfl
    | cons ci rest ih => rw [List.foldl_cons]; exact ih (p.recreate ci)
  · intro ci
    rfl

/-! ### Claim C10 -/

/-- Claim C10: every binding entry produced by binding-layout inference
carries `count = None`; inferred layouts never state an array-count
constraint. -/
theorem inferred_layout_count_none (modules : List (String × Nat × NagaModule))
    (layouts : List OwningBindGroupLayoutDescriptor)
    (h : get_binding_layout modules = some layouts) :
    ∀ d ∈ layouts, ∀ e ∈ d.entries, e.count = none := by
  unfold get_binding_layout at h
  refine foldlM_option_invariant layoutsCountNone
    (fun ls m => m.2.2.global_variables.foldlM (processGlobal m.2.1) ls)
    (fun ls m ls2 hm hP =>
      foldlM_option_invariant layoutsCountNone (processGlobal m.2.1)
        (fun a b c hc hp => processGlobal_countNone hc hp)
        m.2.2.global_variables ls ls2 hm hP)
    modules [] layouts h ?_
  intro d hd
  simp at hd

/-- Module whose globals produce a uniform-buffer entry (group 0) and a
float-sampled texture entry (group 1), used to witness Claim C10. -/
def inferenceModule : NagaModule :=
  { entry_points := []
    global_variables :=
      [{ name := none, binding := some ⟨0, 0⟩, ty := ⟨none, NagaTypeInner.Struct⟩ },
       { name := none, binding := some ⟨1, 2⟩,
         ty := ⟨none, NagaTypeInner.Image ImageDimension.D2 false
           (ImageClass.Sampled ScalarKind.Float false)⟩ }] }

/-- The layouts `get_binding_layout` infers from `inferenceModule`. -/
def inferenceLayouts : List OwningBindGroupLayoutDescriptor :=
  [⟨none, [{ binding := 0, visibility := ShaderStages.VERTEX_FRAGMENT,
             ty := BindingType.Buffer BufferBindingType.Uniform false none, count := none }]⟩,
   ⟨none, [{ binding := 2, visibility := ShaderStages.VERTEX_FRAGMENT,
             ty := BindingType.Texture (TextureSampleType.Float true)
               TextureViewDimension.D2 false, count := none }]⟩]

/-- Witness for Claim C10 on a concrete module. -/
theorem inferred_layout_count_none_witness :
    get_binding_layout [("shader", ShaderStages.VERTEX_FRAGMENT, inferenceModule)] =
      some inferenceLayouts ∧
    ∀ d ∈ inferenceLayouts, ∀ e ∈ d.entries, e.count = none :=
  ⟨by decide, inferred_layout_count_none
    [("shader", ShaderStages.VERTEX_FRAGMENT, inferenceModule)] inferenceLayouts (by decide)⟩

/-! ### Claim C3 -/

/-- Claim C3 counterexample: on a fresh root node, `update_local_transform 7`
leaves the node with `transform_changed = true` (the flag is set, not
cleared), so `get_global_transform` returns `None`, not the new matrix. -/
theorem root_transform_dirty_counterexample :
    ((SceneNode.default Nat).update_local_transform 7).get_global_transform = none ∧
    ((SceneNode.default Nat).update_local_transform 7).get_global_transform ≠ some 7 ∧
    ((SceneNode.default Nat).update_local_transform 7).transform_changed = true := by
  decide

/-- Claim C3 (amended): `update_local_transform` on a parentless node
immediately copies the new matrix into the cached global transform, but it
sets (rather than clears) the dirty flag, so `get_global_transform` observes
`None` until the flag is cleared elsewhere. -/
theorem root_transform_eager_cache_amended {M : Type} (n : SceneNode M) (t : M)
    (h : n.parent = none) :
    (n.update_local_transform t).cached_transform = t ∧
    (n.update_local_transform t).transform_changed = true ∧
    (n.update_local_transform t).get_global_transform = none := by
  unfold SceneNode.update_local_transform SceneNode.get_global_transform
  simp [h]

/-- Witness for the amended Claim C3 on a fresh root node. -/
theorem root_transform_eager_cache_amended_witness :
    (SceneNode.default Nat).parent = none ∧
    (((SceneNode.default Nat).update_local_transform 7).cached_transform = 7 ∧
     ((SceneNode.default Nat).update_local_transform 7).transform_changed = true ∧
     ((SceneNode.default Nat).update_local_transform 7).get_global_transform = none) :=
  ⟨rfl, root_transform_eager_cache_amended (SceneNode.default Nat) 7 rfl⟩

/-! ### Claim C1 -/

/-- Clean three-node chain: node 0 is the root, node 1 its child, node 2 the
grandchild (consistent parent/child links, all transforms identity). -/
def chainTree : SceneTree Nat :=
  ⟨[{ local_transform := 1, cached_transform := 1, transform_changed := false,
      parent := none, children := [1], model := none, instance_id := none },
    { local_transform := 1, cached_transform := 1, transform_changed := false,
      parent := some 0, children := [2], model := none, instance_id := none },
    { local_transform := 1, cached_transform := 1, transform_changed := false,
      parent := some 1, children := [], model := none, instance_id := none }]⟩

/-- The chain after `update_local_transform(root, 2)`,
`update_local_transform(child, 3)`, `update_local_transform(grandchild, 5)`
and `update_transforms()`. -/
def chainTreeUpdated : SceneTree Nat :=
  (((chainTree.update_local_transform 0 2).update_local_transform 1
      3).update_local_transform 2 5).update_transforms

/-- Claim C1 (code bug): on the three-node chain with local transforms 2, 3,
5, `update_transforms` leaves every dirty flag set, overwrites the child and
grandchild local transforms with their parents' cached transforms (3 and 5
are lost), and leaves the cached global transforms at [2, 1, 1] instead of
the path products [2, 2*3, 2*3*5] — the worklist body calls
`update_local_transform(parent.cached_transform)` where the spec (and the
dead method `refresh_transform`) prescribe
`cached = parent.cached * local` and clearing the flag. -/
theorem scene_update_transforms_divergence :
    (chainTreeUpdated.nodes.map fun n => n.transform_changed) = [true, true, true] ∧
    (chainTreeUpdated.nodes.map fun n => n.local_transform) = [2, 2, 1] ∧
    (chainTreeUpdated.nodes.map fun n => n.cached_transform) = [2, 1, 1] ∧
    (chainTreeUpdated.nodes.map fun n => n.cached_transform) ≠ [2, 2 * 3, 2 * 3 * 5] := by
  decide

/-! ### Claim C8 -/

/-- Corrupt-topology tree: node 0 lists itself as its parent; node 1 is a
valid root whose child is node 2. -/
def corruptTree : SceneTree Nat :=
  ⟨[{ local_transform := 1, cached_transform := 1, transform_changed := false,
      parent := some 0, children := [], model := none, instance_id := none },
    { local_transform := 1, cached_transform := 1, transform_changed := false,
      parent := none, children := [2], model := none, instance_id := none },
    { local_transform := 11, cached_transform := 1, transform_changed := false,
      parent := some 1, children := [], model := none, instance_id := none }]⟩

/-- The corrupt tree after `update_local_transform(0, 7)`,
`update_local_transform(1, 2)` and `update_transforms()`. -/
def corruptTreeUpdated : SceneTree Nat :=
  ((corruptTree.update_local_transform 0 7).update_local_transform 1 2).update_transforms

/-- Claim C8 (code bug): the self-parent node 0 is indeed skipped without a
panic (its transforms are untouched by the pass), but the still-valid nodes
are not resolved: every dirty flag stays set, node 2's local transform is
overwritten with its parent's cached transform (11 is lost), and node 2's
cached global transform stays 1 instead of 2 * 11 — the same
`update_local_transform`-instead-of-`refresh_transform` bug as in the main
propagation claim. -/
theorem corrupt_topology_divergence :
    (corruptTreeUpdated.nodes.map fun n => n.transform_changed) = [true, true, true] ∧
    (corruptTreeUpdated.nodes.map fun n => n.local_transform) = [7, 2, 2] ∧
    (corruptTreeUpdated.nodes.map fun n => n.cached_transform) = [1, 2, 1] ∧
    (corruptTreeUpdated.nodes.map fun n => n.cached_transform) ≠ [1, 2, 2 * 11] := by
  decide
